import Mathlib

/-!
Verification of the clinical-trial matching pipeline.

This file gives a shallow embedding of the core of the repository:

* `src/backend/services/matcher.py` — `TrialMatcher.match_patient_to_trial`
  (the response-interpretation step that turns raw LLM text into a
  `MatchResult`, with its markdown-fence stripping, brace slicing, JSON
  decoding, fallback verdict and exception behaviour) and
  `TrialMatcher.match_patient_to_trials` (per-trial error skipping, score
  filtering, stable descending sort).
* `src/backend/models/trial.py` — the `ClinicalTrial` and `MatchResult`
  pydantic models, including the `ge=0, le=1` validation of `match_score`.
* `src/clinical_trials_app/backend/services/clinicaltrials_client.py` —
  `ClinicalTrialsClient.search_trials` (cache-hit behaviour), the cache-key
  derivation, and `_parse_study` (normalization, location truncation).

Python side effects (the LLM HTTP call, cache file I/O) are represented by
explicit parameters holding their outcomes; Python exceptions are modelled
by an `Except` result with an explicit exception type; Python floats
appearing in JSON are modelled by rationals plus the non-finite values.
-/

/-- Model of `models/trial.py` `ClinicalTrial` (pydantic). Optional fields
are `Option`; list fields default to `[]` in pydantic and are plain lists
here. -/
structure ClinicalTrial where
  nct_id : String
  title : String
  brief_summary : Option String
  eligibility_criteria : String
  minimum_age : Option String
  maximum_age : Option String
  gender : Option String
  phase : Option String
  enrollment : Option Int
  status : Option String
  locations : List String
  conditions : List String
  interventions : List String
deriving DecidableEq

/-- Model of `models/trial.py` `MatchResult` (pydantic). `match_score` is
declared there with `ge=0, le=1`; the validation itself is modelled in
`checkScore` below, so a constructed `MatchResult` simply carries the
validated rational. `reasoning` is `Optional[str]`. -/
structure MatchResult where
  trial : ClinicalTrial
  match_score : ℚ
  is_eligible : Bool
  inclusion_matches : List String
  inclusion_mismatches : List String
  exclusion_violations : List String
  exclusion_passes : List String
  explanation : String
  reasoning : Option String
deriving DecidableEq

/-- Python exceptions that can cross the boundaries the claims talk about.
`httpError` carries an identity tag so that "propagated unchanged" is
expressible; `genericError` models `raise Exception(msg)`;
`otherException` models any other exception raised by a backend call
(e.g. an SDK error), also tagged with an identity. `attributeError`,
`typeError`, `valueError` model the built-in exceptions of the parsing
step, and `validationError` models pydantic's `ValidationError`. -/
inductive PyExc where
  | httpError (id : Nat)
  | otherException (id : Nat)
  | genericError (msg : String)
  | attributeError
  | typeError
  | valueError
  | validationError
deriving DecidableEq

/-- The two LLM providers of `TrialMatcher.__init__`. -/
inductive Provider where
  | ollama
  | anthropic
deriving DecidableEq

/-- JSON values as produced by Python's `json.loads`: objects keep their
key/value pairs in textual order (duplicate keys are resolved by
`dictGet`, last one winning, as in a Python dict built left to right).
`nan`, `inf` and `ninf` model the non-finite floats that `json.loads`
accepts by default for the tokens `NaN`, `Infinity` and `-Infinity`. -/
inductive JValue where
  | null
  | jbool (b : Bool)
  | num (q : ℚ)
  | nan
  | inf
  | ninf
  | str (s : String)
  | arr (elems : List JValue)
  | obj (fields : List (String × JValue))

/-- A Python float value: finite (as an exact rational) or non-finite. -/
inductive FloatV where
  | fin (q : ℚ)
  | nan
  | inf
  | ninf
deriving DecidableEq

/-- Decidable equality for modelled call outcomes. -/
instance {e a : Type} [DecidableEq e] [DecidableEq a] : DecidableEq (Except e a) :=
  fun x y =>
    match x, y with
    | .ok u, .ok v =>
      if h : u = v then isTrue (by rw [h]) else isFalse (by intro huv; cases huv; exact h rfl)
    | .error u, .error v =>
      if h : u = v then isTrue (by rw [h]) else isFalse (by intro huv; cases huv; exact h rfl)
    | .ok _, .error _ => isFalse (by intro hxy; cases hxy)
    | .error _, .ok _ => isFalse (by intro hxy; cases hxy)

/-- The opening-brace character, written by code point to keep brace
characters out of the source text. -/
def lbrace : Char := Char.ofNat 123

/-- The closing-brace character. -/
def rbrace : Char := Char.ofNat 125

/-- The markdown fence token of `matcher.py` line 180, as characters. -/
def fenceJsonToks : List Char := "```json".toList

/-- The plain markdown fence token of `matcher.py` line 182, as
characters. -/
def fenceToks : List Char := "```".toList

/-- Worker for `splitOnChars`: scan left to right, breaking at each
non-overlapping occurrence of the (non-empty) separator, like Python's
`str.split(sep)`. The fuel is structural and exceeds the input length, so
it never runs out. -/
def splitOnCharsAux (sep : List Char) : Nat → List Char → List Char →
    List (List Char)
  | 0, cs, acc => [acc.reverse ++ cs]
  | fuel + 1, cs, acc =>
    match cs with
    | [] => [acc.reverse]
    | c :: rest =>
      if sep.isPrefixOf (c :: rest) then
        acc.reverse :: splitOnCharsAux sep fuel ((c :: rest).drop sep.length) []
      else splitOnCharsAux sep fuel rest (c :: acc)
termination_by structural fuel => fuel

/-- Model of Python's `str.split(sep)` for a non-empty separator, on
character lists. -/
def splitOnChars (sep cs : List Char) : List (List Char) :=
  splitOnCharsAux sep (cs.length + 1) cs []

/-- Model of Python's `sub in s` for a non-empty `sub`: the split has at
least two parts exactly when `sub` occurs in `s`. -/
def pySubstring (sub cs : List Char) : Bool :=
  1 < (splitOnChars sub cs).length

/-- The characters removed by Python's `str.strip()` with no argument
(its ASCII whitespace; the rarer Unicode whitespace is not modelled). -/
def pyStripWs (c : Char) : Bool :=
  c = ' ' || c = '\t' || c = '\n' || c = '\r' || c = Char.ofNat 11 || c = Char.ofNat 12

/-- Model of Python's `str.strip()`: drop leading and trailing
whitespace. -/
def trimChars (cs : List Char) : List Char :=
  ((cs.dropWhile pyStripWs).reverse.dropWhile pyStripWs).reverse

/-- Model of `matcher.py` lines 180-183: if the response contains a fence
labelled json, keep what stands between that label and the next fence,
stripped; otherwise if it contains any fence, keep the interior of the
first one, stripped; otherwise keep the text unchanged. Python's
`s.split(sep)[1]` / `[0]` are the `List.getD` calls, guarded by the
containment test exactly as in the source. -/
def extractFenced (cs : List Char) : List Char :=
  if pySubstring fenceJsonToks cs then
    trimChars ((splitOnChars fenceToks ((splitOnChars fenceJsonToks cs).getD 1 [])).getD 0 [])
  else if pySubstring fenceToks cs then
    trimChars ((splitOnChars fenceToks ((splitOnChars fenceToks cs).getD 1 [])).getD 0 [])
  else cs

/-- Model of `matcher.py` lines 187-192: if the stripped text does not
start with an opening brace, take the slice from the first opening brace
to the last closing brace inclusive (`str.find` / `str.rfind`); if either
is absent the text is left unchanged. As in Python, nothing forces the
first opening brace to precede the last closing brace: the slice is then
empty. -/
def braceSlice (cs : List Char) : List Char :=
  if cs.headD (Char.ofNat 0) = lbrace then cs
  else
    match cs.findIdx? (fun c => c = lbrace), (cs.reverse).findIdx? (fun c => c = rbrace) with
    | some i, some rj => (cs.drop i).take (cs.length - 1 - rj + 1 - i)
    | _, _ => cs

/-- The full text-recovery chain applied to the raw LLM response before
`json.loads`: fence extraction (lines 180-183), `strip()` (line 186), and
brace slicing (lines 187-192). -/
def recoverText (s : String) : String :=
  String.mk (braceSlice (trimChars (extractFenced s.toList)))

/-- The whitespace characters of the JSON grammar as implemented by
Python's `json` module: space, tab, newline, carriage return. -/
def jsonWs (c : Char) : Bool :=
  c = ' ' || c = '\t' || c = '\n' || c = '\r'

/-- Drop leading JSON whitespace. -/
def skipWs (cs : List Char) : List Char :=
  cs.dropWhile jsonWs

/-- Hex digit value, for string escapes of the form backslash-u. -/
def hexVal (c : Char) : Option Nat :=
  if '0' ≤ c ∧ c ≤ '9' then some (c.toNat - '0'.toNat)
  else if 'a' ≤ c ∧ c ≤ 'f' then some (c.toNat - 'a'.toNat + 10)
  else if 'A' ≤ c ∧ c ≤ 'F' then some (c.toNat - 'A'.toNat + 10)
  else none

/-- Decimal digit test. -/
def isDigitCh (c : Char) : Bool :=
  '0' ≤ c && c ≤ '9'

/-- Numeric value of a list of decimal digits. -/
def digitsToNat (ds : List Char) : Nat :=
  ds.foldl (fun acc c => acc * 10 + (c.toNat - '0'.toNat)) 0

/-- Exact rational value of a decimal literal given as a sign, integer
digits, fraction digits and a decimal exponent. Built from integer
arithmetic and `mkRat` only, so that it evaluates by kernel reduction. -/
def ratOfParts (neg : Bool) (intDs fracDs : List Char) (expV : Int) : ℚ :=
  let mant : Int := Int.ofNat (digitsToNat (intDs ++ fracDs))
  let smant : Int := if neg then -mant else mant
  let e : Int := expV - Int.ofNat fracDs.length
  if 0 ≤ e then mkRat (smant * Int.ofNat (10 ^ e.toNat)) 1
  else mkRat smant (10 ^ (-e).toNat)

/-- Parse the body of a JSON string after the opening quote, returning the
accumulated characters and the rest of the input. Following the strict
mode of `json.loads`: a raw control character (code point below 32) is
rejected, the escapes are exactly quote, backslash, slash, b, f, n, r, t
and the four-hex-digit u form, and the string ends at the first unescaped
quote. -/
def parseJString : Nat → List Char → List Char → Option (String × List Char)
  | 0, _, _ => none
  | _ + 1, [], _ => none
  | fuel + 1, c :: rest, acc =>
    if c = '"' then some (String.mk acc.reverse, rest)
    else if c = '\\' then
      match rest with
      | [] => none
      | e :: rest2 =>
        if e = '"' then parseJString fuel rest2 ('"' :: acc)
        else if e = '\\' then parseJString fuel rest2 ('\\' :: acc)
        else if e = '/' then parseJString fuel rest2 ('/' :: acc)
        else if e = 'b' then parseJString fuel rest2 (Char.ofNat 8 :: acc)
        else if e = 'f' then parseJString fuel rest2 (Char.ofNat 12 :: acc)
        else if e = 'n' then parseJString fuel rest2 ('\n' :: acc)
        else if e = 'r' then parseJString fuel rest2 ('\r' :: acc)
        else if e = 't' then parseJString fuel rest2 ('\t' :: acc)
        else if e = 'u' then
          match rest2 with
          | h1 :: h2 :: h3 :: h4 :: rest3 =>
            match hexVal h1, hexVal h2, hexVal h3, hexVal h4 with
            | some a, some b, some c3, some d =>
                parseJString fuel rest3
                  (Char.ofNat (((a * 16 + b) * 16 + c3) * 16 + d) :: acc)
            | _, _, _, _ => none
          | _ => none
        else none
    else if c.toNat < 32 then none
    else parseJString fuel rest (c :: acc)

/-- Parse a JSON number per the grammar used by Python's scanner:
optional minus, an integer part that is a single 0 or a nonzero digit
followed by digits, an optional fraction (dot plus at least one digit)
and an optional exponent. The exact value is returned as a rational. -/
def parseNumber (cs : List Char) : Option (ℚ × List Char) :=
  let (neg, cs1) :=
    match cs with
    | '-' :: t => (true, t)
    | _ => (false, cs)
  match cs1 with
  | c :: t =>
    if ¬ isDigitCh c then none
    else
      let (intDs, rest1) :=
        if c = '0' then ([c], t)
        else (c :: t.takeWhile isDigitCh, t.dropWhile isDigitCh)
      let (fracDs, rest2) :=
        match rest1 with
        | '.' :: u =>
          let ds := u.takeWhile isDigitCh
          if ds = [] then (([] : List Char), rest1)
          else (ds, u.dropWhile isDigitCh)
        | _ => ([], rest1)
      let (expVal, rest3) :=
        match rest2 with
        | e :: u =>
          if e = 'e' ∨ e = 'E' then
            let (esign, u2) :=
              match u with
              | '+' :: w => ((1 : Int), w)
              | '-' :: w => ((-1 : Int), w)
              | _ => ((1 : Int), u)
            let ds := u2.takeWhile isDigitCh
            if ds = [] then ((0 : Int), rest2)
            else (esign * Int.ofNat (digitsToNat ds), u2.dropWhile isDigitCh)
          else ((0 : Int), rest2)
        | _ => ((0 : Int), rest2)
      some (ratOfParts neg intDs fracDs expVal, rest3)
  | [] => none

mutual

/-- Parse one JSON value, mirroring Python's scanner: strings, objects,
arrays, the literals true/false/null, the non-finite tokens NaN, Infinity
and -Infinity (accepted by `json.loads` by default), and numbers. -/
def parseVal : Nat → List Char → Option (JValue × List Char)
  | 0, _ => none
  | fuel + 1, cs =>
    match skipWs cs with
    | [] => none
    | c :: rest =>
      if c = '"' then
        match parseJString fuel rest [] with
        | some (s, r) => some (.str s, r)
        | none => none
      else if c = lbrace then parseObjElems fuel rest true
      else if c = '[' then parseArrElems fuel rest true []
      else if ("true".toList).isPrefixOf (c :: rest) then
        some (.jbool true, (c :: rest).drop 4)
      else if ("false".toList).isPrefixOf (c :: rest) then
        some (.jbool false, (c :: rest).drop 5)
      else if ("null".toList).isPrefixOf (c :: rest) then
        some (.null, (c :: rest).drop 4)
      else if ("NaN".toList).isPrefixOf (c :: rest) then
        some (.nan, (c :: rest).drop 3)
      else if ("Infinity".toList).isPrefixOf (c :: rest) then
        some (.inf, (c :: rest).drop 8)
      else if ("-Infinity".toList).isPrefixOf (c :: rest) then
        some (.ninf, (c :: rest).drop 9)
      else
        match parseNumber (c :: rest) with
        | some (q, r) => some (.num q, r)
        | none => none
termination_by structural fuel => fuel

/-- Parse the elements of a JSON array after the opening bracket. `first`
is true when no element has been read yet, so that an immediate closing
bracket yields the empty array but a comma before a closing bracket is
rejected, as in Python. -/
def parseArrElems : Nat → List Char → Bool → List JValue →
    Option (JValue × List Char)
  | 0, _, _, _ => none
  | fuel + 1, cs, first, acc =>
    match skipWs cs with
    | [] => none
    | c :: rest =>
      if c = ']' ∧ first then some (.arr [], rest)
      else
        match parseVal fuel (c :: rest) with
        | none => none
        | some (v, r1) =>
          match skipWs r1 with
          | ',' :: r2 => parseArrElems fuel r2 false (v :: acc)
          | ']' :: r2 => some (.arr (v :: acc).reverse, r2)
          | _ => none
termination_by structural fuel => fuel

/-- Parse the members of a JSON object after the opening brace, in
textual order. Keys must be JSON strings followed by a colon; a trailing
comma is rejected, as in Python. -/
def parseObjElems : Nat → List Char → Bool →
    Option (JValue × List Char)
  | 0, _, _ => none
  | fuel + 1, cs, first => parseObjLoop fuel cs first []
termination_by structural fuel => fuel

/-- Worker for `parseObjElems`, accumulating the members read so far. -/
def parseObjLoop : Nat → List Char → Bool → List (String × JValue) →
    Option (JValue × List Char)
  | 0, _, _, _ => none
  | fuel + 1, cs, first, acc =>
    match skipWs cs with
    | [] => none
    | c :: rest =>
      if c = rbrace ∧ first then some (.obj [], rest)
      else if c = '"' then
        match parseJString fuel rest [] with
        | none => none
        | some (k, r1) =>
          match skipWs r1 with
          | ':' :: r2 =>
            match parseVal fuel r2 with
            | none => none
            | some (v, r3) =>
              match skipWs r3 with
              | ',' :: r4 => parseObjLoop fuel r4 false ((k, v) :: acc)
              | d :: r4 =>
                if d = rbrace then some (.obj ((k, v) :: acc).reverse, r4)
                else none
              | _ => none
          | _ => none
      else none
termination_by structural fuel => fuel

end

/-- Model of `json.loads`: parse one value (with enough fuel for any
input of this length) and require that only whitespace follows, else the
call raises `JSONDecodeError`, modelled by `none`. -/
def jsonParse (s : String) : Option JValue :=
  let cs := s.toList
  match parseVal (4 * cs.length + 8) cs with
  | some (v, rest) => if skipWs rest = [] then some v else none
  | none => none

/-- Model of a lookup in the dict produced by `json.loads`: with duplicate
keys the last occurrence wins, since a Python dict literal is built left
to right. Returns `none` when the key is absent, like `dict.get`. -/
def dictGet (fields : List (String × JValue)) (k : String) : Option JValue :=
  match fields.reverse.find? (fun kv => kv.fst == k) with
  | some kv => some kv.snd
  | none => none

/-- Model of `result_data.get(k, dflt)`. -/
def fieldOr (fields : List (String × JValue)) (k : String) (dflt : JValue) : JValue :=
  (dictGet fields k).getD dflt

/-- ASCII lower-casing, for the case-insensitive tokens of `float(str)`. -/
def asciiLower (c : Char) : Char :=
  if 'A' ≤ c ∧ c ≤ 'Z' then Char.ofNat (c.toNat + 32) else c

/-- Model of Python's `float(str)`: strip whitespace, optional sign, then
either the case-insensitive tokens nan / inf / infinity, or a decimal
number with optional fraction and exponent (at least one digit overall).
Anything else raises `ValueError`, modelled by `none`. -/
def strToFloat (s : String) : Option FloatV :=
  let cs := trimChars s.toList
  let (neg, cs1) :=
    match cs with
    | '-' :: t => (true, t)
    | '+' :: t => (false, t)
    | _ => (false, cs)
  let low := cs1.map asciiLower
  if low = "nan".toList then some .nan
  else if low = "inf".toList ∨ low = "infinity".toList then
    some (if neg then .ninf else .inf)
  else
    let intDs := cs1.takeWhile isDigitCh
    let r1 := cs1.dropWhile isDigitCh
    let (fracDs, r2) :=
      match r1 with
      | '.' :: u => (u.takeWhile isDigitCh, u.dropWhile isDigitCh)
      | _ => (([] : List Char), r1)
    if intDs = [] ∧ fracDs = [] then none
    else
      match r2 with
      | [] => some (.fin (ratOfParts neg intDs fracDs 0))
      | e :: u =>
        if e = 'e' ∨ e = 'E' then
          let (esign, u2) :=
            match u with
            | '+' :: w => ((1 : Int), w)
            | '-' :: w => ((-1 : Int), w)
            | _ => ((1 : Int), u)
          let ds := u2.takeWhile isDigitCh
          if ds = [] ∨ u2.dropWhile isDigitCh ≠ [] then none
          else some (.fin (ratOfParts neg intDs fracDs (esign * Int.ofNat (digitsToNat ds))))
        else none

/-- Model of `float(x)` applied to a decoded JSON value, as in
`float(result_data.get("match_score", 0.0))`: numbers and booleans
convert, numeric strings are parsed, any other string raises
`ValueError`, and `None`, lists and dicts raise `TypeError`. -/
def pyFloat : JValue → Except PyExc FloatV
  | .num q => .ok (.fin q)
  | .nan => .ok .nan
  | .inf => .ok .inf
  | .ninf => .ok .ninf
  | .jbool b => .ok (.fin (if b then 1 else 0))
  | .str s =>
    match strToFloat s with
    | some v => .ok v
    | none => .error .valueError
  | .null => .error .typeError
  | .arr _ => .error .typeError
  | .obj _ => .error .typeError

/-- Model of `bool(x)` on a decoded JSON value: Python truthiness. -/
def pyBool : JValue → Bool
  | .null => false
  | .jbool b => b
  | .num q => q ≠ 0
  | .nan => true
  | .inf => true
  | .ninf => true
  | .str s => s ≠ ""
  | .arr xs => ¬ xs.isEmpty
  | .obj fs => ¬ fs.isEmpty

/-- Pydantic validation of a `List[str]` field element list: every
element must be a string, anything else is a `ValidationError`. -/
def strItems : List JValue → Except PyExc (List String)
  | [] => .ok []
  | .str s :: t =>
    match strItems t with
    | .ok rest => .ok (s :: rest)
    | .error e => .error e
  | _ :: _ => .error .validationError

/-- Pydantic validation of a `List[str]` field: the value must be a list
of strings. -/
def asStrList : JValue → Except PyExc (List String)
  | .arr xs => strItems xs
  | _ => .error .validationError

/-- Pydantic validation of a `str` field. -/
def asStr : JValue → Except PyExc String
  | .str s => .ok s
  | _ => .error .validationError

/-- Pydantic validation of an `Optional[str]` field. -/
def asOptStr : JValue → Except PyExc (Option String)
  | .str s => .ok (some s)
  | .null => .ok none
  | _ => .error .validationError

/-- Pydantic validation of `match_score: float = Field(..., ge=0, le=1)`:
a non-finite float fails both comparisons, a finite one must lie in
[0, 1]. -/
def checkScore : FloatV → Except PyExc ℚ
  | .fin q => if 0 ≤ q ∧ q ≤ 1 then .ok q else .error .validationError
  | _ => .error .validationError

/-- Validation of the remaining `MatchResult` fields (the four criteria
lists, the explanation and the reasoning), with the defaults of
`matcher.py` lines 201-206 for absent keys, ending in the constructed
`MatchResult`. -/
def finishVerdict (trial : ClinicalTrial) (q : ℚ) (elig : Bool)
    (fields : List (String × JValue)) : Except PyExc MatchResult :=
  match asStrList (fieldOr fields "inclusion_matches" (.arr [])) with
  | .error e => .error e
  | .ok im =>
    match asStrList (fieldOr fields "inclusion_mismatches" (.arr [])) with
    | .error e => .error e
    | .ok imm =>
      match asStrList (fieldOr fields "exclusion_violations" (.arr [])) with
      | .error e => .error e
      | .ok evi =>
        match asStrList (fieldOr fields "exclusion_passes" (.arr [])) with
        | .error e => .error e
        | .ok ep =>
          match asStr (fieldOr fields "explanation"
              (.str "Unable to determine eligibility")) with
          | .error e => .error e
          | .ok ex =>
            match asOptStr (fieldOr fields "reasoning" (.str "")) with
            | .error e => .error e
            | .ok rs => .ok ⟨trial, q, elig, im, imm, evi, ep, ex, rs⟩

/-- Model of `matcher.py` lines 197-207: build the `MatchResult` from the
decoded JSON object. `float(...)` runs first (its `TypeError` or
`ValueError` is raised while the constructor arguments are evaluated),
`bool(...)` is total, and pydantic validation runs on construction. -/
def buildVerdict (trial : ClinicalTrial) (fields : List (String × JValue)) :
    Except PyExc MatchResult :=
  match pyFloat (fieldOr fields "match_score" (.num 0)) with
  | .error e => .error e
  | .ok fv =>
    let elig := pyBool (fieldOr fields "is_eligible" (.jbool false))
    match checkScore fv with
    | .error e => .error e
    | .ok q => finishVerdict trial q elig fields

/-- Message detail of the `JSONDecodeError` raised on a given text. The
exact wording is produced by Python's json library, not by this
repository, so it is modelled as a fixed representative string. -/
def jsonErrDetail (_s : String) : String := "Expecting value"

/-- The fallback verdict of `matcher.py` lines 217-227, built on
`JSONDecodeError`: zero score, not eligible, four empty lists, the fixed
explanation, and a reasoning carrying the parse-error detail. -/
def fallbackResult (trial : ClinicalTrial) (detail : String) : MatchResult :=
  { trial := trial
    match_score := 0
    is_eligible := false
    inclusion_matches := []
    inclusion_mismatches := []
    exclusion_violations := []
    exclusion_passes := []
    explanation := "Error processing eligibility criteria"
    reasoning := some ("LLM response parsing error: " ++ detail) }

/-- The response-interpretation step of `match_patient_to_trial` (lines
178-227): recover a candidate JSON text, decode it; a `JSONDecodeError`
yields the fallback verdict, a decoded object is turned into a
`MatchResult`, and any other decoded value makes `result_data.get` raise
`AttributeError`, which the function re-raises (line 240). -/
def interpretResponse (trial : ClinicalTrial) (response_text : String) :
    Except PyExc MatchResult :=
  match jsonParse (recoverText response_text) with
  | none => .ok (fallbackResult trial (jsonErrDetail (recoverText response_text)))
  | some (.obj fields) => buildVerdict trial fields
  | some _ => .error .attributeError

/-- The message of the exception raised at `matcher.py` lines 232-235
when the provider is ollama and the backend call failed; the source
interpolates the configured URL, which is irrelevant to the claims and
omitted here. -/
def ollamaConnectMsg : String :=
  "Cannot connect to Ollama. Make sure Ollama is running."

/-- Model of `TrialMatcher.match_patient_to_trial`. The LLM call is an
external effect whose outcome is the `backend` parameter: raw text on
success, or the exception it raised. An `httpx.HTTPError` is replaced by
a new generic exception for the ollama provider and re-raised unchanged
otherwise (lines 229-236); every other backend exception is re-raised
unchanged (lines 238-240); a successful call goes through the
response-interpretation step. -/
def match_patient_to_trial (provider : Provider)
    (backend : Except PyExc String) (trial : ClinicalTrial) :
    Except PyExc MatchResult :=
  match backend with
  | .ok text => interpretResponse trial text
  | .error (.httpError i) =>
    match provider with
    | .ollama => .error (.genericError ollamaConnectMsg)
    | .anthropic => .error (.httpError i)
  | .error e => .error e

/-- The filtering loop of `match_patient_to_trials` (lines 259-270): for
each trial in order, run `match_patient_to_trial`; a raised exception is
caught and the trial skipped; a result is kept when
`match_result.match_score >= min_score`. -/
def collectResults (provider : Provider)
    (oracle : ClinicalTrial → Except PyExc String)
    (trials : List ClinicalTrial) (min_score : ℚ) : List MatchResult :=
  match trials with
  | [] => []
  | t :: ts =>
    match match_patient_to_trial provider (oracle t) t with
    | .ok r =>
      if min_score ≤ r.match_score then
        r :: collectResults provider oracle ts min_score
      else collectResults provider oracle ts min_score
    | .error _ => collectResults provider oracle ts min_score

/-- The ordering used by `results.sort(key=lambda x: x.match_score,
reverse=True)`: descending by score. -/
def scoreRel (a b : MatchResult) : Prop :=
  b.match_score ≤ a.match_score

instance : DecidableRel scoreRel :=
  fun a b => inferInstanceAs (Decidable (b.match_score ≤ a.match_score))

instance : IsTotal MatchResult scoreRel :=
  ⟨fun a b => le_total b.match_score a.match_score⟩

instance : IsTrans MatchResult scoreRel :=
  ⟨fun _ _ _ hab hbc => le_trans hbc hab⟩

/-- Model of `TrialMatcher.match_patient_to_trials` (lines 242-276): run
the per-trial loop, then sort by match score descending. Python's
`list.sort` is a stable sort; it is modelled by the stable
`List.insertionSort`, which computes the same list as any stable sort by
the same key. The Python parameter default is `min_score = 0.0`. No
exception escapes: the loop catches every per-trial exception, so the
result type is a plain list. -/
def match_patient_to_trials (provider : Provider)
    (oracle : ClinicalTrial → Except PyExc String)
    (trials : List ClinicalTrial) (min_score : ℚ) : List MatchResult :=
  List.insertionSort scoreRel (collectResults provider oracle trials min_score)

/-- A raw location record inside `contactsLocationsModule.locations`:
`_parse_study` reads its `city` and `state` with default `""`. -/
structure RawLocation where
  city : Option String
  state : Option String
deriving DecidableEq

/-- A raw intervention record inside
`armsInterventionsModule.interventions`: `_parse_study` reads its `name`
with default `""`. -/
structure RawIntervention where
  name : Option String
deriving DecidableEq

/-- A raw registry study record, carrying exactly the fields that
`_parse_study` reads out of the nested `protocolSection` sub-modules. A
`none` models an absent key (each `dict.get` default is applied in
`parse_study`). -/
structure RawStudy where
  nctId : Option String
  briefTitle : Option String
  briefSummary : Option String
  eligibilityCriteria : Option String
  minimumAge : Option String
  maximumAge : Option String
  sex : Option String
  phases : Option (List String)
  enrollmentCount : Option Int
  overallStatus : Option String
  locations : Option (List RawLocation)
  conditions : Option (List String)
  interventions : Option (List RawIntervention)
deriving DecidableEq

/-- The location loop of `_parse_study` (lines 196-201): a location
contributes the string "city, state" only when both `city` and `state`
are present and non-empty (Python's `if city and state` truthiness). -/
def fmtLocation (l : RawLocation) : Option String :=
  let c := l.city.getD ""
  let st := l.state.getD ""
  if c ≠ "" ∧ st ≠ "" then some (c ++ ", " ++ st) else none

/-- Model of `ClinicalTrialsClient._parse_study` (lines 173-225):
normalize a raw study record into a `ClinicalTrial`. The phase is the
first element of `phases` when that list is present and non-empty, else
`None` (the conditional expression at line 219); the locations are the
formatted city/state pairs truncated to the first 5 (line 222). -/
def parse_study (s : RawStudy) : ClinicalTrial :=
  { nct_id := s.nctId.getD ""
    title := s.briefTitle.getD ""
    brief_summary := some (s.briefSummary.getD "")
    eligibility_criteria := s.eligibilityCriteria.getD ""
    minimum_age := s.minimumAge
    maximum_age := s.maximumAge
    gender := some (s.sex.getD "ALL")
    phase :=
      match s.phases with
      | some (p :: _) => some p
      | _ => none
    enrollment := s.enrollmentCount
    status := some (s.overallStatus.getD "")
    locations := ((s.locations.getD []).filterMap fmtLocation).take 5
    conditions := s.conditions.getD []
    interventions := (s.interventions.getD []).map (fun iv => iv.name.getD "") }

/-- Python truthiness of the value returned by `_load_from_cache`:
`None` and the empty list are falsy, a non-empty list is truthy. This is
the test `if cached_data:` at `clinicaltrials_client.py` line 111. -/
def pyTruthyList : Option (List ClinicalTrial) → Bool
  | none => false
  | some [] => false
  | some (_ :: _) => true

/-- Outcome of one `search_trials` call: the returned trials, and whether
an outbound registry request was issued. -/
structure SearchOutcome where
  trials : List ClinicalTrial
  registryCalled : Bool
deriving DecidableEq

/-- Model of `ClinicalTrialsClient.search_trials` (lines 87-167) for the
aspects the claims are about. `cached` is the value `_load_from_cache`
returned for this query's key (`none` on a missing, expired or unreadable
entry; cached payloads were serialized from `ClinicalTrial` values by
`model_dump`, so deserialization is the identity on them).
`registryStudies` is the list of raw study records the registry would
return. If the cached value is truthy the cached trials are returned with
no outbound call; otherwise the registry is contacted and every study is
normalized (in the typed record model `parse_study` is total, so the
per-record skip of lines 156-161 has nothing to skip). -/
def search_trials (cached : Option (List ClinicalTrial))
    (registryStudies : List RawStudy) : SearchOutcome :=
  if pyTruthyList cached then
    { trials := cached.getD [], registryCalled := false }
  else
    { trials := registryStudies.map parse_study, registryCalled := true }

/-- Model of Python's `x or 'none'` on an optional string: `None` and the
empty string are falsy and give the literal `'none'`. -/
def pyOrNone : Option String → String
  | none => "none"
  | some s => if s = "" then "none" else s

/-- Python's `str()` of a boolean, as interpolated by an f-string. -/
def pyStrOfBool (b : Bool) : String :=
  if b then "True" else "False"

/-- The cache-key derivation of `search_trials` (line 107):
`f"{condition or 'none'}_{keywords or 'none'}_{max_results}_{recruiting_only}"`. -/
def cacheKey (condition keywords : Option String) (maxResults : Int)
    (recruitingOnly : Bool) : String :=
  pyOrNone condition ++ "_" ++ pyOrNone keywords ++ "_" ++ toString maxResults
    ++ "_" ++ pyStrOfBool recruitingOnly

/-- The cache-key derivation of `get_trial_by_nct` (line 237):
`f"nct_{nct_id}"`. -/
def nctCacheKey (nctId : String) : String :=
  "nct_" ++ nctId

/-- A concrete trial used in the concrete instances below. -/
def sampleTrial : ClinicalTrial :=
  { nct_id := "NCT00000001"
    title := "Sample Trial"
    brief_summary := some "A sample"
    eligibility_criteria := "Inclusion: adults."
    minimum_age := some "18 Years"
    maximum_age := none
    gender := some "ALL"
    phase := none
    enrollment := some 100
    status := some "RECRUITING"
    locations := []
    conditions := ["Diabetes"]
    interventions := [] }

/-- A second concrete trial. -/
def trialB : ClinicalTrial := { sampleTrial with nct_id := "NCT00000002" }

/-- A third concrete trial. -/
def trialC : ClinicalTrial := { sampleTrial with nct_id := "NCT00000003" }

/-- A verdict whose only explicit fields were a score and an eligibility
flag: every other field takes the defaults of `matcher.py` lines 201-206. -/
def defaultVerdict (t : ClinicalTrial) (q : ℚ) (elig : Bool) : MatchResult :=
  { trial := t
    match_score := q
    is_eligible := elig
    inclusion_matches := []
    inclusion_mismatches := []
    exclusion_violations := []
    exclusion_passes := []
    explanation := "Unable to determine eligibility"
    reasoning := some "" }

/-- An LLM response scoring 0.3. -/
def scoreText03 : String := "\x7b\"match_score\": 0.3\x7d"

/-- An LLM response scoring 0.9. -/
def scoreText09 : String := "\x7b\"match_score\": 0.9\x7d"

/-- An LLM response scoring 0.6. -/
def scoreText06 : String := "\x7b\"match_score\": 0.6\x7d"

/-- A well-formed JSON response wrapped in a fence labelled json. -/
def fencedText : String :=
  "```json\n\x7b\"match_score\": 0.85, \"is_eligible\": true\x7d\n```"

/-- A well-formed JSON response surrounded by prose. -/
def proseText : String :=
  "Here is the verdict: \x7b\"match_score\": 0.5\x7d Thanks!"

/-- A bare well-formed JSON object response. -/
def plainObjText : String := "\x7b\"is_eligible\": true, \"match_score\": 1\x7d"

/-- The oracle of the ranking example: the three trials produce scores
0.3, 0.9 and 0.6 in input order. -/
def rankOracle : ClinicalTrial → Except PyExc String :=
  fun t =>
    if t = sampleTrial then .ok scoreText03
    else if t = trialB then .ok scoreText09
    else .ok scoreText06

/-- The oracle of the resilience example: the backend raises an HTTP
error for the middle trial and succeeds for the other two. -/
def failOracle : ClinicalTrial → Except PyExc String :=
  fun t =>
    if t = trialB then .error (.httpError 7)
    else if t = sampleTrial then .ok scoreText09
    else .ok scoreText06

/-- The oracle of the parse-failure example: the second trial's response
is unparseable text, the first scores 0.6. -/
def garbledOracle : ClinicalTrial → Except PyExc String :=
  fun t =>
    if t = trialB then .ok "I could not assess this trial, sorry."
    else .ok scoreText06

/-- A raw study record with every field absent. -/
def emptyRawStudy : RawStudy :=
  { nctId := none
    briefTitle := none
    briefSummary := none
    eligibilityCriteria := none
    minimumAge := none
    maximumAge := none
    sex := none
    phases := none
    enrollmentCount := none
    overallStatus := none
    locations := none
    conditions := none
    interventions := none }

/-- Eight raw locations, each with a city and a state. -/
def locs8 : List RawLocation :=
  [{ city := some "Alba", state := some "AA" },
   { city := some "Bard", state := some "BB" },
   { city := some "Cole", state := some "CC" },
   { city := some "Dunn", state := some "DD" },
   { city := some "Eyre", state := some "EE" },
   { city := some "Fern", state := some "FF" },
   { city := some "Gage", state := some "GG" },
   { city := some "Hale", state := some "HH" }]

/-- A registry record with eight complete locations. -/
def study8 : RawStudy := { emptyRawStudy with nctId := some "NCT8", locations := some locs8 }

/-- Eight raw locations that all lack a state. -/
def locs8bad : List RawLocation :=
  [{ city := some "Alba", state := none },
   { city := some "Bard", state := none },
   { city := some "Cole", state := none },
   { city := some "Dunn", state := none },
   { city := some "Eyre", state := none },
   { city := some "Fern", state := none },
   { city := some "Gage", state := none },
   { city := some "Hale", state := none }]

/-- A registry record with eight locations, none of which carries a
state. -/
def study8bad : RawStudy :=
  { emptyRawStudy with nctId := some "NCT8B", locations := some locs8bad }

/-- A `MatchResult` built by `finishVerdict` carries exactly the score it
was given. -/
theorem finishVerdict_score {t : ClinicalTrial} {q : ℚ} {e : Bool}
    {fields : List (String × JValue)} {r : MatchResult}
    (h : finishVerdict t q e fields = .ok r) : r.match_score = q := by
  unfold finishVerdict at h
  repeat' split at h
  all_goals simp_all
  exact congrArg MatchResult.match_score h.symm

/-- A score accepted by the pydantic range check lies in [0, 1]. -/
theorem checkScore_bounds {fv : FloatV} {q : ℚ} (h : checkScore fv = .ok q) :
    0 ≤ q ∧ q ≤ 1 := by
  cases fv with
  | fin q0 =>
    simp only [checkScore] at h
    split at h
    · rename_i hq
      obtain rfl : q0 = q := by simpa using h
      exact hq
    · simp at h
  | nan => simp [checkScore] at h
  | inf => simp [checkScore] at h
  | ninf => simp [checkScore] at h

/-- A successfully built verdict has its score in [0, 1]. -/
theorem buildVerdict_bounds {t : ClinicalTrial}
    {fields : List (String × JValue)} {r : MatchResult}
    (h : buildVerdict t fields = .ok r) :
    0 ≤ r.match_score ∧ r.match_score ≤ 1 := by
  unfold buildVerdict at h
  split at h
  · exact absurd h (by simp)
  · split at h
    · exact absurd h (by simp)
    · rename_i q hq
      rw [finishVerdict_score h]
      exact checkScore_bounds hq

/-- Any verdict returned (rather than raised) by the interpretation step
has its score in [0, 1]: the fallback scores 0 and a built verdict passed
the range check. -/
theorem interpret_bounds {t : ClinicalTrial} {s : String} {r : MatchResult}
    (h : interpretResponse t s = .ok r) :
    0 ≤ r.match_score ∧ r.match_score ≤ 1 := by
  unfold interpretResponse at h
  split at h
  · cases h
    exact ⟨by norm_num [fallbackResult], by norm_num [fallbackResult]⟩
  · exact buildVerdict_bounds h
  · exact absurd h (by simp)

/-- Any `MatchResult` returned by `match_patient_to_trial` has its score
in [0, 1]. -/
theorem matchOne_bounds {p : Provider} {b : Except PyExc String}
    {t : ClinicalTrial} {r : MatchResult}
    (h : match_patient_to_trial p b t = .ok r) :
    0 ≤ r.match_score ∧ r.match_score ≤ 1 := by
  unfold match_patient_to_trial at h
  split at h
  · exact interpret_bounds h
  · split at h <;> exact absurd h (by simp)
  · exact absurd h (by simp)

/-- Unfolding of the filtering loop on a trial whose match succeeds. -/
theorem collect_cons_ok {p : Provider} {o : ClinicalTrial → Except PyExc String}
    {t : ClinicalTrial} {ts : List ClinicalTrial} {m : ℚ} {r : MatchResult}
    (h : match_patient_to_trial p (o t) t = .ok r) :
    collectResults p o (t :: ts) m =
      if m ≤ r.match_score then r :: collectResults p o ts m
      else collectResults p o ts m := by
  conv_lhs => unfold collectResults
  rw [h]

/-- Unfolding of the filtering loop on a trial whose match raises. -/
theorem collect_cons_error {p : Provider} {o : ClinicalTrial → Except PyExc String}
    {t : ClinicalTrial} {ts : List ClinicalTrial} {m : ℚ} {e : PyExc}
    (h : match_patient_to_trial p (o t) t = .error e) :
    collectResults p o (t :: ts) m = collectResults p o ts m := by
  conv_lhs => unfold collectResults
  rw [h]

/-- Every result kept by the filtering loop meets the score threshold. -/
theorem mem_collect_min {p : Provider} {o : ClinicalTrial → Except PyExc String}
    {ts : List ClinicalTrial} {m : ℚ} {r : MatchResult}
    (h : r ∈ collectResults p o ts m) : m ≤ r.match_score := by
  induction ts with
  | nil => simp [collectResults] at h
  | cons t ts ih =>
    unfold collectResults at h
    split at h
    · rename_i r0 _
      split at h
      · rcases List.mem_cons.mp h with rfl | hmem
        · assumption
        · exact ih hmem
      · exact ih h
    · exact ih h

/-- Every result kept by the filtering loop comes from a successful
per-trial match of one of the input trials. -/
theorem mem_collect_exists {p : Provider}
    {o : ClinicalTrial → Except PyExc String}
    {ts : List ClinicalTrial} {m : ℚ} {r : MatchResult}
    (h : r ∈ collectResults p o ts m) :
    ∃ t ∈ ts, match_patient_to_trial p (o t) t = .ok r := by
  induction ts with
  | nil => simp [collectResults] at h
  | cons t ts ih =>
    unfold collectResults at h
    split at h
    · rename_i hok
      split at h
      · rcases List.mem_cons.mp h with rfl | hmem
        · exact ⟨t, List.mem_cons_self t ts, hok⟩
        · rcases ih hmem with ⟨u, hu, hmu⟩
          exact ⟨u, List.mem_cons_of_mem t hu, hmu⟩
      · rcases ih h with ⟨u, hu, hmu⟩
        exact ⟨u, List.mem_cons_of_mem t hu, hmu⟩
    · rcases ih h with ⟨u, hu, hmu⟩
      exact ⟨u, List.mem_cons_of_mem t hu, hmu⟩

/-- A successful per-trial result that meets the threshold is kept by the
filtering loop. -/
theorem mem_collect_of {p : Provider} {o : ClinicalTrial → Except PyExc String}
    {ts : List ClinicalTrial} {m : ℚ} {t : ClinicalTrial} {r : MatchResult}
    (ht : t ∈ ts) (hok : match_patient_to_trial p (o t) t = .ok r)
    (hm : m ≤ r.match_score) : r ∈ collectResults p o ts m := by
  induction ts with
  | nil => cases ht
  | cons u ts ih =>
    unfold collectResults
    rcases List.mem_cons.mp ht with rfl | hmem
    · rw [hok]
      simp only [if_pos hm]
      exact List.mem_cons_self _ _
    · split
      · split
        · exact List.mem_cons_of_mem _ (ih hmem)
        · exact ih hmem
      · exact ih hmem

/-- Dropping the trials whose per-trial match raises does not change the
output of the filtering loop. -/
theorem collect_filter_ok (p : Provider) (o : ClinicalTrial → Except PyExc String)
    (ts : List ClinicalTrial) (m : ℚ) :
    collectResults p o (ts.filter (fun t => (match_patient_to_trial p (o t) t).isOk)) m
      = collectResults p o ts m := by
  induction ts with
  | nil => rfl
  | cons t ts ih =>
    by_cases hc : (match_patient_to_trial p (o t) t).isOk
    · simp only [List.filter_cons, hc, if_true]
      unfold collectResults
      rw [ih]
    · rw [Bool.not_eq_true] at hc
      simp only [List.filter_cons, hc, Bool.false_eq_true, if_false]
      rw [ih]
      cases hmt : match_patient_to_trial p (o t) t with
      | ok r =>
        rw [hmt] at hc
        simp [Except.isOk, Except.toBool] at hc
      | error e =>
        rw [collect_cons_error hmt]

/-- The ranked output is a permutation of the kept results. -/
theorem matchMany_perm (p : Provider) (o : ClinicalTrial → Except PyExc String)
    (ts : List ClinicalTrial) (m : ℚ) :
    (match_patient_to_trials p o ts m).Perm (collectResults p o ts m) :=
  List.perm_insertionSort scoreRel _

/-- Membership in the ranked output is membership among the kept
results. -/
theorem mem_matchMany {p : Provider} {o : ClinicalTrial → Except PyExc String}
    {ts : List ClinicalTrial} {m : ℚ} {r : MatchResult} :
    r ∈ match_patient_to_trials p o ts m ↔ r ∈ collectResults p o ts m :=
  (matchMany_perm p o ts m).mem_iff

/-- The ranked output is sorted by match score, descending. -/
theorem matchMany_sorted (p : Provider) (o : ClinicalTrial → Except PyExc String)
    (ts : List ClinicalTrial) (m : ℚ) :
    List.Sorted scoreRel (match_patient_to_trials p o ts m) :=
  List.sorted_insertionSort scoreRel _

/-- Stability of the sort: for any score value, the results carrying that
score appear in the ranked output in exactly the order the filtering loop
produced them (that is, in input order). -/
theorem filter_insertionSort_score (l : List MatchResult) (c : ℚ) :
    (List.insertionSort scoreRel l).filter (fun r => decide (r.match_score = c))
      = l.filter (fun r => decide (r.match_score = c)) := by
  have hpair : (l.filter (fun r => decide (r.match_score = c))).Pairwise scoreRel := by
    apply List.pairwise_of_forall_mem_list
    intro a ha b hb
    have ha3 : a.match_score = c := by simpa using (List.mem_filter.mp ha).2
    have hb3 : b.match_score = c := by simpa using (List.mem_filter.mp hb).2
    unfold scoreRel
    rw [ha3, hb3]
  have hsub : List.Sublist (l.filter (fun r => decide (r.match_score = c)))
      (List.insertionSort scoreRel l) :=
    List.sublist_insertionSort hpair (List.filter_sublist l)
  have hsub2 : List.Sublist (l.filter (fun r => decide (r.match_score = c)))
      ((List.insertionSort scoreRel l).filter (fun r => decide (r.match_score = c))) := by
    have h1 := List.Sublist.filter (fun r => decide (r.match_score = c)) hsub
    have h2 : (fun (a : MatchResult) => decide (a.match_score = c) && decide (a.match_score = c))
        = fun a => decide (a.match_score = c) := funext fun a => Bool.and_self _
    rwa [List.filter_filter, h2] at h1
  have hlen : ((List.insertionSort scoreRel l).filter (fun r => decide (r.match_score = c))).length
      = (l.filter (fun r => decide (r.match_score = c))).length :=
    (List.Perm.filter _ (List.perm_insertionSort scoreRel l)).length_eq
  exact (List.Sublist.eq_of_length hsub2 hlen.symm).symm

/-- Stability for the ranked output: ties are broken by the order of the
filtering loop, which is the input order of the trials. -/
theorem matchMany_filter_score (p : Provider) (o : ClinicalTrial → Except PyExc String)
    (ts : List ClinicalTrial) (m : ℚ) (c : ℚ) :
    (match_patient_to_trials p o ts m).filter (fun r => decide (r.match_score = c))
      = (collectResults p o ts m).filter (fun r => decide (r.match_score = c)) :=
  filter_insertionSort_score _ c

/-- On a trial whose backend call returned text that fails JSON decoding,
the per-trial match returns (not raises) the fallback verdict. -/
theorem matchOne_fallback {p : Provider} {t : ClinicalTrial} {s : String}
    (hp : jsonParse (recoverText s) = none) :
    match_patient_to_trial p (.ok s) t
      = .ok (fallbackResult t (jsonErrDetail (recoverText s))) := by
  show interpretResponse t s = _
  unfold interpretResponse
  rw [hp]

/-- C1 (counterexample): the claim says the response-interpretation step
never raises for any input text. The text "5" is well-formed JSON but
not an object, so `json.loads` succeeds, no `JSONDecodeError` is caught,
and `result_data.get` raises `AttributeError`, which
`match_patient_to_trial` re-raises: the step does not return a verdict
on this input. -/
theorem c1_interpret_raises_on_nonobject_json :
    match_patient_to_trial .anthropic (.ok "5") sampleTrial
      = .error .attributeError := by rfl

/-- C1 (amended): the response-interpretation step returns a verdict
without raising on every text that fails JSON decoding (where it yields
the fallback verdict) — which covers empty text and arbitrary prose — and
on well-formed JSON objects, whether bare, wrapped in a fence labelled
json, or surrounded by prose; it can raise only when the recovered text
decodes to a non-object JSON value or to an object whose fields fail
float conversion or pydantic validation. -/
theorem c1_interpret_total_amended :
    (∀ (p : Provider) (t : ClinicalTrial) (s : String),
      jsonParse (recoverText s) = none →
        match_patient_to_trial p (.ok s) t
          = .ok (fallbackResult t (jsonErrDetail (recoverText s)))) ∧
    match_patient_to_trial .anthropic (.ok fencedText) sampleTrial
      = .ok (defaultVerdict sampleTrial (mkRat 17 20) true) ∧
    match_patient_to_trial .anthropic (.ok proseText) sampleTrial
      = .ok (defaultVerdict sampleTrial (mkRat 1 2) false) ∧
    match_patient_to_trial .anthropic (.ok plainObjText) sampleTrial
      = .ok (defaultVerdict sampleTrial 1 true) := by
  refine ⟨fun p t s hp => matchOne_fallback hp, by decide, by decide, by decide⟩

/-- Witness for the amended C1: the empty response text fails JSON
decoding, and the step returns the fallback verdict for it. -/
theorem c1_interpret_total_amended_witness :
    match_patient_to_trial .anthropic (.ok "") sampleTrial
      = .ok (fallbackResult sampleTrial (jsonErrDetail (recoverText ""))) :=
  c1_interpret_total_amended.1 .anthropic sampleTrial "" (by rfl)

/-- C2 (counterexample): the claim promises the exact fallback verdict
for every text unparseable as a JSON object. The text "[]" cannot be
parsed as a JSON object (it is a JSON array), yet the step raises
`AttributeError` instead of returning the fallback verdict, because only
`JSONDecodeError` is caught and `json.loads` succeeds here. -/
theorem c2_nonobject_json_not_fallback :
    match_patient_to_trial .anthropic (.ok "[]") sampleTrial
      = .error .attributeError := by rfl

/-- C2 (amended): for every raw text on which JSON decoding itself fails
after all recovery steps, the returned verdict is exactly the fallback:
zero score, not eligible, all four criteria lists empty, the fixed
explanation, and a reasoning carrying the parse-error detail. (Text that
decodes to a non-object JSON value raises instead.) -/
theorem c2_fallback_on_decode_failure :
    ∀ (p : Provider) (t : ClinicalTrial) (s : String),
      jsonParse (recoverText s) = none →
      match_patient_to_trial p (.ok s) t
          = .ok (fallbackResult t (jsonErrDetail (recoverText s))) ∧
      (fallbackResult t (jsonErrDetail (recoverText s))).match_score = 0 ∧
      (fallbackResult t (jsonErrDetail (recoverText s))).is_eligible = false ∧
      (fallbackResult t (jsonErrDetail (recoverText s))).inclusion_matches = [] ∧
      (fallbackResult t (jsonErrDetail (recoverText s))).inclusion_mismatches = [] ∧
      (fallbackResult t (jsonErrDetail (recoverText s))).exclusion_violations = [] ∧
      (fallbackResult t (jsonErrDetail (recoverText s))).exclusion_passes = [] ∧
      (fallbackResult t (jsonErrDetail (recoverText s))).explanation
          = "Error processing eligibility criteria" ∧
      (fallbackResult t (jsonErrDetail (recoverText s))).reasoning
          = some ("LLM response parsing error: " ++ jsonErrDetail (recoverText s)) :=
  fun _ _ _ hp =>
    ⟨matchOne_fallback hp, rfl, rfl, rfl, rfl, rfl, rfl, rfl, rfl⟩

/-- Witness for the amended C2: a prose response fails JSON decoding and
yields exactly the fallback verdict. -/
theorem c2_fallback_on_decode_failure_witness :
    match_patient_to_trial .ollama (.ok "random bytes \x00\x01") trialB
      = .ok (fallbackResult trialB (jsonErrDetail (recoverText "random bytes \x00\x01"))) :=
  (c2_fallback_on_decode_failure .ollama trialB "random bytes \x00\x01" (by rfl)).1

/-- C3 (confirmed): every `MatchResult` returned by
`match_patient_to_trial`, and hence every element of the list returned by
`match_patient_to_trials`, has its match score within [0, 1]: the
fallback verdict scores 0 and any built verdict passed the pydantic
`ge=0, le=1` range check (an out-of-range score raises instead of being
returned). -/
theorem c3_match_score_in_unit_interval :
    (∀ (p : Provider) (b : Except PyExc String) (t : ClinicalTrial) (r : MatchResult),
      match_patient_to_trial p b t = .ok r →
        0 ≤ r.match_score ∧ r.match_score ≤ 1) ∧
    (∀ (p : Provider) (o : ClinicalTrial → Except PyExc String)
        (ts : List ClinicalTrial) (m : ℚ) (r : MatchResult),
      r ∈ match_patient_to_trials p o ts m →
        0 ≤ r.match_score ∧ r.match_score ≤ 1) := by
  constructor
  · intro p b t r h
    exact matchOne_bounds h
  · intro p o ts m r h
    rcases mem_collect_exists (mem_matchMany.mp h) with ⟨t, _, hok⟩
    exact matchOne_bounds hok

/-- Witness for C3: a concrete successful match whose score 0.9 lies in
[0, 1]. -/
theorem c3_match_score_in_unit_interval_witness :
    0 ≤ (defaultVerdict trialB (mkRat 9 10) false).match_score ∧
      (defaultVerdict trialB (mkRat 9 10) false).match_score ≤ 1 :=
  c3_match_score_in_unit_interval.1 .anthropic (.ok scoreText09) trialB
    (defaultVerdict trialB (mkRat 9 10) false) (by decide)

/-- C4 (confirmed): `match_patient_to_trials` keeps exactly the
successful results meeting the threshold, sorted by score descending with
ties in input order. Conjuncts: every output result meets the threshold;
every output result is a successful per-trial match of an input trial;
conversely every successful per-trial result meeting the threshold is in
the output; the output is sorted descending; it is a permutation of the
kept results in input order (`collectResults`); for each score value the
equal-score results appear exactly in input order (stability); and the
spec's concrete instance: scores [0.3, 0.9, 0.6] with threshold 0.5
produce exactly the 0.9- and 0.6-scored trials, in that order. -/
theorem c4_ranking_filter_sort_stable :
    (∀ (p : Provider) (o : ClinicalTrial → Except PyExc String)
        (ts : List ClinicalTrial) (m : ℚ),
      (∀ r ∈ match_patient_to_trials p o ts m, m ≤ r.match_score) ∧
      (∀ r ∈ match_patient_to_trials p o ts m,
        ∃ t ∈ ts, match_patient_to_trial p (o t) t = .ok r) ∧
      (∀ t ∈ ts, ∀ r : MatchResult,
        match_patient_to_trial p (o t) t = .ok r → m ≤ r.match_score →
          r ∈ match_patient_to_trials p o ts m) ∧
      List.Sorted scoreRel (match_patient_to_trials p o ts m) ∧
      (match_patient_to_trials p o ts m).Perm (collectResults p o ts m) ∧
      (∀ c : ℚ,
        (match_patient_to_trials p o ts m).filter (fun r => decide (r.match_score = c))
          = (collectResults p o ts m).filter (fun r => decide (r.match_score = c)))) ∧
    match_patient_to_trials .anthropic rankOracle [sampleTrial, trialB, trialC] (mkRat 1 2)
      = [defaultVerdict trialB (mkRat 9 10) false, defaultVerdict trialC (mkRat 3 5) false] := by
  constructor
  · intro p o ts m
    refine ⟨?_, ?_, ?_, matchMany_sorted p o ts m, matchMany_perm p o ts m,
      fun c => matchMany_filter_score p o ts m c⟩
    · intro r hr
      exact mem_collect_min (mem_matchMany.mp hr)
    · intro r hr
      exact mem_collect_exists (mem_matchMany.mp hr)
    · intro t ht r hok hm
      exact mem_matchMany.mpr (mem_collect_of ht hok hm)
  · decide

/-- Witness for C4: in the concrete ranking instance, the top result
meets the 0.5 threshold. -/
theorem c4_ranking_filter_sort_stable_witness :
    mkRat 1 2 ≤ (defaultVerdict trialB (mkRat 9 10) false).match_score :=
  (c4_ranking_filter_sort_stable.1 .anthropic rankOracle
    [sampleTrial, trialB, trialC] (mkRat 1 2)).1
    (defaultVerdict trialB (mkRat 9 10) false) (by decide)

/-- C5 (confirmed): a per-trial exception is caught and the trial is
skipped: the batch output equals the batch over the trials whose match
succeeded, every output result comes from a successful match, no
exception escapes (`match_patient_to_trials` returns a plain list, there
is no exceptional outcome in its type), and the spec's concrete
instance: with the backend failing for exactly the middle of three
trials, the output holds results for the other two, score-descending. -/
theorem c5_batch_resilience :
    (∀ (p : Provider) (o : ClinicalTrial → Except PyExc String)
        (ts : List ClinicalTrial) (m : ℚ),
      match_patient_to_trials p o ts m
        = match_patient_to_trials p o
            (ts.filter (fun t => (match_patient_to_trial p (o t) t).isOk)) m ∧
      (∀ r ∈ match_patient_to_trials p o ts m,
        ∃ t ∈ ts, match_patient_to_trial p (o t) t = .ok r)) ∧
    match_patient_to_trials .anthropic failOracle [sampleTrial, trialB, trialC] 0
      = [defaultVerdict sampleTrial (mkRat 9 10) false,
         defaultVerdict trialC (mkRat 3 5) false] := by
  constructor
  · intro p o ts m
    constructor
    · unfold match_patient_to_trials
      rw [collect_filter_ok]
    · intro r hr
      exact mem_collect_exists (mem_matchMany.mp hr)
  · decide

/-- Witness for C5: the concrete three-trial batch with one failing
backend call equals the batch over the two surviving trials. -/
theorem c5_batch_resilience_witness :
    match_patient_to_trials .anthropic failOracle [sampleTrial, trialB, trialC] 0
      = match_patient_to_trials .anthropic failOracle
          ([sampleTrial, trialB, trialC].filter
            (fun t => (match_patient_to_trial .anthropic (failOracle t) t).isOk)) 0 :=
  (c5_batch_resilience.1 .anthropic failOracle [sampleTrial, trialB, trialC] 0).1

/-- C10 (confirmed): a trial whose LLM response fails JSON parsing is not
dropped: its fallback verdict (score 0) is kept by the `>=` comparison
under the default threshold 0 and so appears in the ranked output, while
under any positive threshold it is excluded. -/
theorem c10_parse_failure_trial_retained_or_filtered :
    ∀ (p : Provider) (o : ClinicalTrial → Except PyExc String)
      (ts : List ClinicalTrial) (t : ClinicalTrial) (s : String),
      t ∈ ts → o t = .ok s → jsonParse (recoverText s) = none →
      (fallbackResult t (jsonErrDetail (recoverText s))
          ∈ match_patient_to_trials p o ts 0) ∧
      (∀ m : ℚ, 0 < m →
        fallbackResult t (jsonErrDetail (recoverText s))
          ∉ match_patient_to_trials p o ts m) := by
  intro p o ts t s ht ho hp
  have hok : match_patient_to_trial p (o t) t
      = .ok (fallbackResult t (jsonErrDetail (recoverText s))) := by
    rw [ho]
    exact matchOne_fallback hp
  constructor
  · exact mem_matchMany.mpr (mem_collect_of ht hok (le_refl 0))
  · intro m hm hmem
    have hle : m ≤ (fallbackResult t (jsonErrDetail (recoverText s))).match_score :=
      mem_collect_min (mem_matchMany.mp hmem)
    exact absurd hle (not_le.mpr hm)

/-- Witness for C10: in the concrete two-trial batch whose second
response is prose, the second trial's fallback verdict appears in the
output under the default threshold 0. -/
theorem c10_parse_failure_trial_retained_or_filtered_witness :
    fallbackResult trialB
        (jsonErrDetail (recoverText "I could not assess this trial, sorry."))
      ∈ match_patient_to_trials .anthropic garbledOracle [sampleTrial, trialB] 0 :=
  (c10_parse_failure_trial_retained_or_filtered .anthropic garbledOracle
    [sampleTrial, trialB] trialB "I could not assess this trial, sorry."
    (by decide) (by decide) (by rfl)).1

/-- C6 (counterexample): the claim says a valid cache entry never leads
to an outbound registry call. A valid, unexpired, readable cache entry
whose stored payload is the empty list (a cached search that found no
trials) is falsy under Python's `if cached_data:`, so `search_trials`
treats it as a miss and contacts the registry anyway. -/
theorem c6_cached_empty_contacts_registry :
    (search_trials (some []) []).registryCalled = true := rfl

/-- C6 (amended): a cache hit whose payload is non-empty is returned
as-is with no outbound registry call; a valid cache entry holding the
empty list is treated as a miss and the registry is contacted. -/
theorem c6_nonempty_cache_hit_no_registry_call :
    (∀ (t : ClinicalTrial) (ts : List ClinicalTrial) (studies : List RawStudy),
      search_trials (some (t :: ts)) studies
        = { trials := t :: ts, registryCalled := false }) ∧
    (∀ studies : List RawStudy,
      (search_trials (some []) studies).registryCalled = true) :=
  ⟨fun _ _ _ => rfl, fun _ => rfl⟩

/-- C7 (counterexample): the claim says distinct parameter tuples yield
distinct fingerprints. The plain underscore concatenation collides:
condition "a_b" with keywords "c" produces the same key as condition "a"
with keywords "b_c"; and a search with condition "nct" collides with the
single-trial key space of `get_trial_by_nct`. -/
theorem c7_fingerprint_collisions :
    cacheKey (some "a_b") (some "c") 20 true
        = cacheKey (some "a") (some "b_c") 20 true ∧
    ((some "a_b" : Option String), (some "c" : Option String))
        ≠ (some "a", some "b_c") ∧
    cacheKey (some "nct") (some "x") 20 true = nctCacheKey "x_20_True" :=
  ⟨by decide, by decide, by decide⟩

/-- On a non-empty string, Python's `x or 'none'` is the identity. -/
theorem pyOrNone_of_ne {s : String} (h : s ≠ "") : pyOrNone (some s) = s := by
  show (if s = "" then "none" else s) = s
  rw [if_neg h]

/-- Splitting at an underscore is unambiguous when neither prefix
contains an underscore. -/
theorem append_underscore_inj : ∀ {a c : List Char} {b d : List Char},
    '_' ∉ a → '_' ∉ c → a ++ '_' :: b = c ++ '_' :: d → a = c ∧ b = d := by
  intro a
  induction a with
  | nil =>
    intro c b d _ hc h
    cases c with
    | nil => simpa using h
    | cons y cs =>
      rw [List.nil_append, List.cons_append] at h
      injection h with h1 _
      exact absurd (h1 ▸ List.mem_cons_self '_' cs) hc
  | cons x xs ih =>
    intro c b d ha hc h
    cases c with
    | nil =>
      rw [List.nil_append, List.cons_append] at h
      injection h with h1 _
      exact absurd (h1 ▸ List.mem_cons_self '_' xs) (h1 ▸ ha)
    | cons y cs =>
      rw [List.cons_append, List.cons_append] at h
      injection h with h1 h2
      have ha2 : '_' ∉ xs := fun hm => ha (List.mem_cons_of_mem _ hm)
      have hc2 : '_' ∉ cs := fun hm => hc (List.mem_cons_of_mem _ hm)
      obtain ⟨e1, e2⟩ := ih ha2 hc2 h2
      exact ⟨by rw [h1, e1], e2⟩

/-- C7 (amended): the fingerprint derivation is a deterministic function
of the four query parameters, but it is not collision-free in general
(see the counterexample); it is injective on the queries whose condition
and keyword texts are present, non-empty and underscore-free, for any
fixed result-count limit and recruiting flag. -/
theorem c7_fingerprint_injective_on_underscore_free :
    ∀ (c1 k1 c2 k2 : String) (m : Int) (rec : Bool),
      '_' ∉ c1.toList → '_' ∉ c2.toList → '_' ∉ k1.toList → '_' ∉ k2.toList →
      c1 ≠ "" → c2 ≠ "" → k1 ≠ "" → k2 ≠ "" →
      cacheKey (some c1) (some k1) m rec = cacheKey (some c2) (some k2) m rec →
      c1 = c2 ∧ k1 = k2 := by
  intro c1 k1 c2 k2 m rec hu1 hu2 hu3 hu4 hn1 hn2 hn3 hn4 h
  unfold cacheKey at h
  rw [pyOrNone_of_ne hn1, pyOrNone_of_ne hn2, pyOrNone_of_ne hn3,
    pyOrNone_of_ne hn4] at h
  have hd := congrArg String.data h
  have hus : ("_" : String).data = '_' :: [] := rfl
  simp only [String.data_append, hus, List.append_assoc, List.cons_append,
    List.nil_append] at hd
  obtain ⟨e1, e2⟩ := append_underscore_inj hu1 hu2 hd
  obtain ⟨e3, _⟩ := append_underscore_inj hu3 hu4 e2
  exact ⟨String.ext e1, String.ext e3⟩

/-- Witness for the amended C7: underscore-free queries are recovered
from their fingerprint. -/
theorem c7_fingerprint_injective_on_underscore_free_witness :
    "diabetes" = "diabetes" ∧ "insulin" = "insulin" :=
  c7_fingerprint_injective_on_underscore_free "diabetes" "insulin"
    "diabetes" "insulin" 20 true (by decide) (by decide) (by decide) (by decide)
    (by decide) (by decide) (by decide) (by decide) rfl

/-- C8 (counterexample): the claim says an HTTP failure of the backend
call propagates to the caller unchanged for both providers. For the
ollama provider the caught `httpx.HTTPError` is replaced by a newly
raised generic exception with a connection hint, so the caller does not
receive the same exception. -/
theorem c8_ollama_http_error_replaced :
    match_patient_to_trial .ollama (.error (.httpError 0)) sampleTrial
        = .error (.genericError ollamaConnectMsg) ∧
    (Except.error (PyExc.genericError ollamaConnectMsg)
        : Except PyExc MatchResult) ≠ .error (.httpError 0) :=
  ⟨rfl, by decide⟩

/-- C8 (amended): a backend HTTP failure always propagates as an
exception (it is never masked into a fallback result), unchanged for the
anthropic provider but replaced by a generic connection-hint exception
for the ollama provider; any non-HTTP backend exception is re-raised
unchanged for both providers. -/
theorem c8_backend_error_propagation_amended :
    (∀ (i : Nat) (t : ClinicalTrial),
      match_patient_to_trial .anthropic (.error (.httpError i)) t
        = .error (.httpError i)) ∧
    (∀ (i : Nat) (t : ClinicalTrial),
      match_patient_to_trial .ollama (.error (.httpError i)) t
        = .error (.genericError ollamaConnectMsg)) ∧
    (∀ (p : Provider) (i : Nat) (t : ClinicalTrial),
      match_patient_to_trial p (.error (.otherException i)) t
        = .error (.otherException i)) :=
  ⟨fun _ _ => rfl, fun _ _ => rfl, fun _ _ _ => rfl⟩

/-- A list of locations that all carry a city and a state contributes one
formatted entry per location, in order. -/
theorem filterMap_fmt_of_all {xs : List RawLocation}
    (hxs : ∀ l ∈ xs, l.city.getD "" ≠ "" ∧ l.state.getD "" ≠ "") :
    xs.filterMap fmtLocation
      = xs.map (fun l => l.city.getD "" ++ ", " ++ l.state.getD "") := by
  induction xs with
  | nil => rfl
  | cons x xs ih =>
    have hx := hxs x (List.mem_cons_self _ _)
    have hfx : fmtLocation x = some (x.city.getD "" ++ ", " ++ x.state.getD "") := by
      unfold fmtLocation
      rw [if_pos hx]
    rw [List.filterMap_cons, hfx, List.map_cons,
      ih (fun l hl => hxs l (List.mem_cons_of_mem _ hl))]

/-- C9 (counterexample): the claim says every record with 8 locations
normalizes to exactly 5. A record with 8 locations that all lack a state
normalizes to 0 locations, because only locations with both a non-empty
city and a non-empty state are kept before the truncation. -/
theorem c9_eight_locations_without_state_drop_to_zero :
    study8bad.locations = some locs8bad ∧ locs8bad.length = 8 ∧
    (parse_study study8bad).locations = [] :=
  ⟨rfl, rfl, rfl⟩

/-- C9 (amended): normalization always retains at most 5 locations; and
a record whose locations all carry a non-empty city and state normalizes
to the first five of them, formatted "city, state" in original order —
in particular exactly 5 when the record has 8 locations. -/
theorem c9_location_truncation_amended :
    (∀ s : RawStudy, (parse_study s).locations.length ≤ 5) ∧
    (∀ (st : RawStudy) (ls : List RawLocation),
      st.locations = some ls →
      (∀ l ∈ ls, l.city.getD "" ≠ "" ∧ l.state.getD "" ≠ "") →
      (parse_study st).locations
        = (ls.take 5).map (fun l => l.city.getD "" ++ ", " ++ l.state.getD "") ∧
      (ls.length = 8 → (parse_study st).locations.length = 5)) := by
  constructor
  · intro s
    show (((s.locations.getD []).filterMap fmtLocation).take 5).length ≤ 5
    exact List.length_take_le 5 _
  · intro st ls hls hall
    have hloc : (parse_study st).locations = (ls.filterMap fmtLocation).take 5 := by
      show ((st.locations.getD []).filterMap fmtLocation).take 5 = _
      rw [hls]
      rfl
    rw [hloc, filterMap_fmt_of_all hall]
    constructor
    · exact (List.map_take _ _ _).symm
    · intro h8
      rw [List.length_take, List.length_map, h8]
      decide

/-- Witness for the amended C9: the concrete eight-location record
normalizes to exactly five locations. -/
theorem c9_location_truncation_amended_witness :
    (parse_study study8).locations.length = 5 :=
  (c9_location_truncation_amended.2 study8 locs8 rfl (by decide)).2 rfl
